import Mathlib

/-!
Verification of the ScreenRecorder recording engine.

Shallow embedding of the core recorder logic:
  * `core/audio_capture.py`  — device enumeration, loopback heuristic, mixing
  * `core/recorder.py`       — state machine, capture loop, post-stop reconciliation
  * `core/video_writer.py`   — video sink
  * `utils/audio_merger.py`  — external muxing / fps-fix invocations

Machine integers are modelled as `Int` with explicit wrapping where the code
narrows (`astype(np.int16)`); time values are `ℚ`; the file system around the
reconciler is a three-slot record (output path, temp video path, temp audio
path), since those are the only paths `stop_recording` touches.
-/

namespace ScreenRecorder

/-! ### Audio mixing (`AudioCapture._mix_audio`)

The Python code interprets both byte buffers as `int16` arrays, zero-pads the
shorter at its end (`np.pad(arr, (0, k))`), widens to `int32`, sums,
`np.clip`s to `[-32768, 32767]` and narrows with `astype(np.int16)`.
-/

/-- Model of `np.clip(x, -32768, 32767)` on one element. -/
def clip32 (s : ℤ) : ℤ := min (max s (-32768)) 32767

/-- Model of `astype(np.int16)`: wrap an integer into the signed 16-bit range. -/
def toInt16 (x : ℤ) : ℤ := (x + 32768) % 65536 - 32768

/-- Model of `np.pad(l, (0, n - len(l)))`: zero-pad at the end up to length `n`
(identity when `l` already has length `≥ n`, which is how `_mix_audio` uses
it on the longer of its two arrays). -/
def padTo (n : ℕ) (l : List ℤ) : List ℤ := l ++ List.replicate (n - l.length) 0

/-- Model of `AudioCapture._mix_audio`, on the sample arrays: pad both to the common
(max) length, then element-wise `int16(clip(a + b))`. -/
def mix_audio (a1 a2 : List ℤ) : List ℤ :=
  List.zipWith (fun x y => toInt16 (clip32 (x + y)))
    (padTo (max a1.length a2.length) a1) (padTo (max a1.length a2.length) a2)

lemma clip32_le (s : ℤ) : clip32 s ≤ 32767 := min_le_right _ _

lemma clip32_ge (s : ℤ) : -32768 ≤ clip32 s := by
  refine le_min (le_max_right _ _) (by norm_num)

lemma toInt16_of_range (x : ℤ) (h1 : -32768 ≤ x) (h2 : x ≤ 32767) :
    toInt16 x = x := by
  unfold toInt16
  rw [Int.emod_eq_of_lt (by linarith) (by linarith)]
  ring

lemma toInt16_clip32 (s : ℤ) : toInt16 (clip32 s) = clip32 s :=
  toInt16_of_range _ (clip32_ge s) (clip32_le s)

lemma padTo_self (l : List ℤ) : padTo l.length l = l := by
  simp [padTo]

lemma padTo_length (n : ℕ) (l : List ℤ) (h : l.length ≤ n) :
    (padTo n l).length = n := by
  simp [padTo]
  omega

lemma mix_audio_length (a b : List ℤ) :
    (mix_audio a b).length = max a.length b.length := by
  unfold mix_audio
  rw [List.length_zipWith, padTo_length _ _ (le_max_left _ _),
    padTo_length _ _ (le_max_right _ _), min_self]

lemma getD_replicate_zero (m i : ℕ) : (List.replicate m (0 : ℤ)).getD i 0 = 0 := by
  rcases Nat.lt_or_ge i m with h | h
  · rw [List.getD_eq_getElem _ _ (by simpa using h)]
    simp
  · rw [List.getD_eq_default]
    simpa using h

lemma padTo_getD (n : ℕ) (l : List ℤ) (i : ℕ) :
    (padTo n l).getD i 0 = l.getD i 0 := by
  unfold padTo
  rcases Nat.lt_or_ge i l.length with hi | hi
  · exact List.getD_append _ _ _ _ hi
  · rw [List.getD_append_right _ _ _ _ hi, List.getD_eq_default _ _ hi,
      getD_replicate_zero]

lemma getD_zipWith_of_lt (f : ℤ → ℤ → ℤ) (xs ys : List ℤ) (i : ℕ)
    (hx : i < xs.length) (hy : i < ys.length) :
    (List.zipWith f xs ys).getD i 0 = f (xs.getD i 0) (ys.getD i 0) := by
  have hz : i < (List.zipWith f xs ys).length := by
    rw [List.length_zipWith]
    omega
  rw [List.getD_eq_getElem _ _ hz, List.getD_eq_getElem _ _ hx,
    List.getD_eq_getElem _ _ hy, List.getElem_zipWith]

/-- C7: for equal-length chunks of signed 16-bit samples, `_mix_audio`
computes, element-wise, the (32-bit, i.e. exact) sum of the two samples
clamped to `[-32768, 32767]`; the narrowing back to 16 bits does not alter
the clamped value. -/
theorem mix_audio_equal_length_clamps (a b : List ℤ) (h : a.length = b.length) :
    mix_audio a b = List.zipWith (fun x y => min (max (x + y) (-32768)) 32767) a b := by
  have hf : (fun x y : ℤ => toInt16 (clip32 (x + y)))
      = fun x y : ℤ => min (max (x + y) (-32768)) 32767 := by
    funext x y
    rw [toInt16_clip32]
    rfl
  have ha : padTo b.length a = a := by
    rw [← h]
    exact padTo_self a
  unfold mix_audio
  rw [h, max_self, ha, padTo_self, hf]

/-- Witness for C7: samples whose naive 16-bit addition would overflow
(`30000 + 30000`, `-20000 + -20000`) clamp to `32767` / `-32768`. -/
theorem mix_audio_equal_length_clamps_witness :
    mix_audio [30000, -20000, 5] [30000, -20000, 7] = [32767, -32768, 12] := by
  rw [mix_audio_equal_length_clamps [30000, -20000, 5] [30000, -20000, 7] (by decide)]
  decide

/-- C8: mixing arrays of (possibly) unequal length zero-pads the shorter at
its end: the output length is the longer input's length, and every output
sample is the clamped sum of the corresponding input samples, samples past
an input's end counting as `0` (`List.getD _ _ 0`). -/
theorem mix_audio_pads_shorter (a b : List ℤ) :
    (mix_audio a b).length = max a.length b.length ∧
    ∀ i : ℕ, i < max a.length b.length →
      (mix_audio a b).getD i 0 = toInt16 (clip32 (a.getD i 0 + b.getD i 0)) := by
  refine ⟨mix_audio_length a b, fun i hi => ?_⟩
  unfold mix_audio
  rw [getD_zipWith_of_lt _ _ _ _
      (by rw [padTo_length _ _ (le_max_left _ _)]; exact hi)
      (by rw [padTo_length _ _ (le_max_right _ _)]; exact hi),
    padTo_getD, padTo_getD]

/-- Witness for C8: a length-1 chunk mixed with a length-3 chunk yields a
length-3 chunk whose tail is the longer chunk's (summed with zero). -/
theorem mix_audio_pads_shorter_witness :
    (mix_audio [30000] [1, 2, 3]).length = 3 ∧
    (mix_audio [30000] [1, 2, 3]).getD 1 0 = 2 := by
  have h := mix_audio_pads_shorter [30000] [1, 2, 3]
  refine ⟨h.1.trans (by decide), ?_⟩
  rw [h.2 1 (by decide)]
  decide

/-- C10: `_mix_audio` is commutative on sample arrays of any lengths. -/
theorem mix_audio_comm (a b : List ℤ) : mix_audio a b = mix_audio b a := by
  unfold mix_audio
  rw [Nat.max_comm b.length a.length]
  exact List.zipWith_comm_of_comm _ (fun x y => by rw [Int.add_comm]) _ _

/-! ### Device enumeration and the loopback name heuristic
(`AudioCapture.get_audio_devices`, `AudioCapture._find_loopback_device`)
-/

/-- Tests that `needle` occurs at the head of `hay` (building block for Python's
substring test `needle in hay`). -/
def leadsWith : List Char → List Char → Bool
  | [], _ => true
  | _ :: _, [] => false
  | a :: as, b :: bs => a == b && leadsWith as bs

/-- Python `needle in hay` on strings: contiguous substring containment. -/
def hasSubList (needle : List Char) : List Char → Bool
  | [] => needle.isEmpty
  | c :: t => leadsWith needle (c :: t) || hasSubList needle t

def containsSub (hay needle : String) : Bool := hasSubList needle.data hay.data

/-- Python `s.lower()`. -/
def lowerStr (s : String) : String := ⟨s.data.map Char.toLower⟩

/-- Specification-side reading of substring containment: `needle` occurs
contiguously inside `hay`. -/
def SubAt (needle hay : List Char) : Prop := ∃ l r, hay = l ++ (needle ++ r)

lemma leadsWith_iff (n h : List Char) : leadsWith n h = true ↔ ∃ r, h = n ++ r := by
  induction n generalizing h with
  | nil => simp [leadsWith]
  | cons a as ih =>
    cases h with
    | nil => simp [leadsWith]
    | cons b bs =>
      simp only [leadsWith, Bool.and_eq_true, beq_iff_eq, ih, List.cons_append,
        List.cons_eq_cons]
      constructor
      · rintro ⟨rfl, r, rfl⟩
        exact ⟨r, rfl, rfl⟩
      · rintro ⟨r, rfl, rfl⟩
        exact ⟨rfl, r, rfl⟩

lemma hasSubList_iff (n h : List Char) : hasSubList n h = true ↔ SubAt n h := by
  induction h with
  | nil =>
    rw [show hasSubList n [] = n.isEmpty from rfl, List.isEmpty_iff]
    constructor
    · rintro rfl
      exact ⟨[], [], rfl⟩
    · rintro ⟨l, r, hl⟩
      exact (List.append_eq_nil.mp (List.append_eq_nil.mp hl.symm).2).1
  | cons c t ih =>
    simp only [hasSubList, Bool.or_eq_true, leadsWith_iff, ih, SubAt]
    constructor
    · rintro (⟨r, hr⟩ | ⟨l, r, rfl⟩)
      · exact ⟨[], r, by simpa using hr⟩
      · exact ⟨c :: l, r, rfl⟩
    · rintro ⟨l, r, hl⟩
      cases l with
      | nil => exact Or.inl ⟨r, by simpa using hl⟩
      | cons x xs =>
        rw [List.cons_append] at hl
        injection hl with h1 h2
        exact Or.inr ⟨xs, r, h2⟩

/-- One entry of PyAudio's device table, as consumed by the enumeration. -/
structure DeviceInfo where
  name : String
  maxInputChannels : ℕ
deriving DecidableEq

/-- One entry of the list returned by `get_audio_devices`. -/
structure Device where
  index : ℕ
  name : String
  is_loopback : Bool
deriving DecidableEq

/-- Computes the `is_loopback` field of `AudioCapture.get_audio_devices`:
`'Loopback' in info['name'] or 'WASAPI' in info['name']` (case-sensitive). -/
def deviceIsLoopback (name : String) : Bool :=
  containsSub name "Loopback" || containsSub name "WASAPI"

/-- Model of `AudioCapture.get_audio_devices`: keep the input-capable devices
(`maxInputChannels > 0`), pairing each with its index and `is_loopback`. -/
def get_audio_devices (infos : List DeviceInfo) : List Device :=
  ((infos.enum).filter (fun p => decide (0 < p.2.maxInputChannels))).map
    (fun p => ⟨p.1, p.2.name, deviceIsLoopback p.2.name⟩)

/-- Keyword list of `AudioCapture._find_loopback_device` (includes the
Chinese locale variant of "stereo mix"). -/
def loopbackKeywords : List String := ["loopback", "wasapi", "stereo mix", "立体声混音"]

/-- Name heuristic of `AudioCapture._find_loopback_device`: lowercase the
device name and look for any of the keywords. -/
def nameMatchesLoopbackHeuristic (name : String) : Bool :=
  loopbackKeywords.any (fun k => containsSub (lowerStr name) k)

/-- Model of `AudioCapture._find_loopback_device`: index of the first device whose
lowercased name contains one of the loopback keywords. -/
def find_loopback_device (infos : List DeviceInfo) : Option ℕ :=
  (infos.enum.find? (fun p => nameMatchesLoopbackHeuristic p.2.name)).map
    (fun p => p.1)

/-- C2 counterexample: a device named "Stereo Mix" matches the loopback name
heuristic (`_find_loopback_device` would pick it) yet device enumeration
classifies it `is_loopback = false`, so the claimed "if and only if" fails. -/
theorem get_audio_devices_loopback_flag_counterexample :
    ¬ ∀ d ∈ get_audio_devices [⟨"Stereo Mix", 2⟩],
        (d.is_loopback = true ↔ nameMatchesLoopbackHeuristic d.name = true) := by
  decide

/-- C2 (amended): the `is_loopback` field returned by device enumeration is
true iff the device name contains, case-sensitively, the substring
`"Loopback"` or `"WASAPI"`; in particular "Speakers (Realtek) [Loopback]" is
classified `true` and "Microphone Array" `false`. -/
theorem get_audio_devices_loopback_flag (infos : List DeviceInfo) (d : Device)
    (hd : d ∈ get_audio_devices infos) :
    (d.is_loopback = true ↔
      SubAt "Loopback".data d.name.data ∨ SubAt "WASAPI".data d.name.data) ∧
    (get_audio_devices
        [⟨"Speakers (Realtek) [Loopback]", 2⟩, ⟨"Microphone Array", 1⟩]).map
      Device.is_loopback = [true, false] := by
  constructor
  · obtain ⟨p, hp, rfl⟩ := List.mem_map.mp hd
    simp only [deviceIsLoopback, containsSub, Bool.or_eq_true, hasSubList_iff]
  · decide

/-- Witness for C2 (amended), at a concrete enumeration. -/
theorem get_audio_devices_loopback_flag_witness :
    (⟨0, "Speakers (Realtek) [Loopback]", true⟩ : Device).is_loopback = true ↔
      SubAt "Loopback".data "Speakers (Realtek) [Loopback]".data ∨
      SubAt "WASAPI".data "Speakers (Realtek) [Loopback]".data := by
  have h := get_audio_devices_loopback_flag [⟨"Speakers (Realtek) [Loopback]", 2⟩]
    ⟨0, "Speakers (Realtek) [Loopback]", true⟩ (by decide)
  exact h.1

/-! ### Recorder state machine (`core/recorder.py`) -/

/-- States of `RecorderState` in `core/recorder.py`. -/
inductive RecorderState
  | idle
  | recording
  | paused
  | stopping
deriving DecidableEq

/-- Fields of `Recorder` that the lifecycle logic reads and writes. Time
values are rational seconds; the audio subsystem is abstracted to the
booleans the control flow tests. -/
structure Recorder where
  state : RecorderState
  fps : ℤ
  frameCount : ℕ
  startTime : Option ℚ
  actualFps : ℚ
  enableAudio : Bool
  /-- Whether `self.audio_capture` is not `None`. -/
  audioCapturePresent : Bool
  /-- Whether `self.temp_audio_path` is set (truthy). -/
  tempAudioSet : Bool
  /-- The `self._stop_event` flag. -/
  stopFlag : Bool
  /-- The `self._pause_event` flag. -/
  pauseFlag : Bool
deriving DecidableEq

/-- Snapshot returned by `Recorder.get_stats` (output path omitted). -/
structure Stats where
  state : RecorderState
  frame_count : ℕ
  duration : ℚ
  actual_fps : ℚ
deriving DecidableEq

/-- Model of `Recorder.get_stats` at wall-clock time `now`: the duration is
`now - start_time` only when a start time exists and the state is
Recording, else `0`. -/
def get_stats (r : Recorder) (now : ℚ) : Stats :=
  { state := r.state
    frame_count := r.frameCount
    duration :=
      match r.startTime with
      | some t => if r.state = RecorderState.recording then now - t else 0
      | none => 0
    actual_fps := r.actualFps }

/-- Environment of one `start_recording` call: whether the audio-setup block
raises, whether `VideoWriter.open()` succeeds, and the wall clock. -/
structure StartEnv where
  audioRaises : Bool
  openOk : Bool
  now : ℚ
deriving DecidableEq

/-- Model of `Recorder.start_recording` (control flow; frame source and sink
are external): reject unless Idle; an exception in the setup block returns
failure with state Idle; otherwise record the audio settings, clamp the fps
with `max(1, min(fps, 120))`, open the sink (failure keeps state Idle), then
reset the counters and transition to Recording. -/
def start_recording (r : Recorder) (fps : ℤ) (enableAudio : Bool)
    (env : StartEnv) : Bool × Recorder :=
  if r.state ≠ RecorderState.idle then (false, r)
  else if env.audioRaises then
    (false, { r with enableAudio := enableAudio, state := RecorderState.idle })
  else
    let r1 := { r with enableAudio := enableAudio,
                       audioCapturePresent := enableAudio,
                       tempAudioSet := enableAudio,
                       fps := max 1 (min fps 120) }
    if env.openOk = false then (false, r1)
    else (true, { r1 with stopFlag := false, pauseFlag := false,
                          frameCount := 0, startTime := some env.now,
                          state := RecorderState.recording })

/-- Model of `Recorder.pause_recording`: only Recording may pause. -/
def pause_recording (r : Recorder) : Bool × Recorder :=
  if r.state ≠ RecorderState.recording then (false, r)
  else (true, { r with state := RecorderState.paused, pauseFlag := true })

/-- Model of `Recorder.resume_recording`: only Paused may resume. -/
def resume_recording (r : Recorder) : Bool × Recorder :=
  if r.state ≠ RecorderState.paused then (false, r)
  else (true, { r with state := RecorderState.recording, pauseFlag := false })

/-! ### Post-stop reconciliation (`Recorder.stop_recording`,
`utils/audio_merger.py`) -/

/-- Abstract contents of the files `stop_recording` touches. -/
inductive Content
  | video
  | audio
  | muxed
  | fixed
deriving DecidableEq

/-- The three paths `stop_recording` manipulates: the output path, the
derived `_temp_video.mp4` path, and the `_temp.wav` audio path. `none`
means the path does not exist on disk. -/
structure FS where
  out : Option Content
  tmpV : Option Content
  tmpA : Option Content
deriving DecidableEq

/-- One external ffmpeg invocation, with the fps passed to it. -/
inductive Invocation
  | mux (target : ℚ)
  | fixFps (target : ℚ)
deriving DecidableEq

/-- Model of `utils/audio_merger.merge_audio_video`: returns False without
invoking ffmpeg when an input file is missing; otherwise invokes ffmpeg
once (with `video_fps := target`), writing the output on success. -/
def merge_audio_video (fs : FS) (ffmpegOk : Bool) (target : ℚ) :
    Bool × FS × List Invocation :=
  if fs.tmpV.isNone then (false, fs, [])
  else if fs.tmpA.isNone then (false, fs, [])
  else if ffmpegOk then
    (true, { fs with out := some Content.muxed }, [Invocation.mux target])
  else (false, fs, [Invocation.mux target])

/-- Model of `utils/audio_merger.fix_video_fps`: always invokes ffmpeg once;
succeeds (writing the output) only when ffmpeg succeeds on an existing
input. -/
def fix_video_fps (fs : FS) (ffmpegOk : Bool) (target : ℚ) :
    Bool × FS × List Invocation :=
  if ffmpegOk ∧ fs.tmpV.isSome then
    (true, { fs with out := some Content.fixed }, [Invocation.fixFps target])
  else (false, fs, [Invocation.fixFps target])

/-- Computes `recording_duration` of `stop_recording`: `now - start_time`
when a start time exists, else `0`. -/
def stop_duration (r : Recorder) (now : ℚ) : ℚ :=
  match r.startTime with
  | some t => now - t
  | none => 0

/-- Computes `actual_fps` of `stop_recording`: `frame_count / duration` when
the duration is positive, else the nominal fps. -/
def stop_actual_fps (r : Recorder) (now : ℚ) : ℚ :=
  if 0 < stop_duration r now then (r.frameCount : ℚ) / stop_duration r now
  else (r.fps : ℚ)

/-- Environment of one `stop_recording` call: the wall clock, the
`save_to_file` result (true only for a non-empty buffer whose write
succeeded), and the external ffmpeg outcomes. -/
structure StopEnv where
  now : ℚ
  audioSaved : Bool
  muxOk : Bool
  fixOk : Bool
deriving DecidableEq

/-- Result of one `stop_recording` call: the Python return value, the
updated engine, the file system, and the external invocations issued. -/
structure StopOutcome where
  ok : Bool
  recorder : Recorder
  fs : FS
  calls : List Invocation
deriving DecidableEq

/-- Case A body of `stop_recording` (lines 218-248), entered after a
successful audio save: rename the output video aside (if it exists), invoke
muxing, then the cleanup block deletes BOTH temp files, and only afterwards
the failure branch renames the temp video back — guarded by its existence. -/
def stop_mux_branch (fs : FS) (muxOk : Bool) (afps : ℚ) : FS × List Invocation :=
  let fsR := if fs.out.isSome then { fs with tmpV := fs.out, out := none } else fs
  let res := merge_audio_video fsR muxOk afps
  let fsC := { res.2.1 with tmpV := none, tmpA := none }
  (if res.1 then fsC
   else if fsC.tmpV.isSome then { fsC with out := fsC.tmpV, tmpV := none }
   else fsC,
   res.2.2)

/-- Case B body of `stop_recording` (lines 264-279), entered when no audio
was recorded, at least one frame exists, and the fps deviation exceeds 5%:
rename the output aside (if it exists), invoke `fix_video_fps`, then delete
the temp video regardless of the outcome. -/
def stop_fix_branch (fs : FS) (fixOk : Bool) (afps : ℚ) : FS × List Invocation :=
  ({ (fix_video_fps
        (if fs.out.isSome then { fs with tmpV := fs.out, out := none } else fs)
        fixOk afps).2.1 with tmpV := none },
   (fix_video_fps
        (if fs.out.isSome then { fs with tmpV := fs.out, out := none } else fs)
        fixOk afps).2.2)

/-- Reconciliation step of `stop_recording` (lines 209-281): Case A when
audio was enabled and captured and the buffer was flushed (the flush writes
the temp WAV), Case B when no audio and the achieved fps deviates by more
than 5% relative error with at least one frame, Case C (no action)
otherwise. -/
def stop_reconcile (r : Recorder) (fs : FS) (env : StopEnv) :
    FS × List Invocation :=
  if r.enableAudio ∧ r.audioCapturePresent then
    if r.tempAudioSet ∧ env.audioSaved then
      stop_mux_branch { fs with tmpA := some Content.audio } env.muxOk
        (stop_actual_fps r env.now)
    else (fs, [])
  else if ¬ r.enableAudio ∧ 0 < r.frameCount then
    if 1/20 < |stop_actual_fps r env.now - (r.fps : ℚ)| / (r.fps : ℚ) then
      stop_fix_branch fs env.fixOk (stop_actual_fps r env.now)
    else (fs, [])
  else (fs, [])

/-- Model of `Recorder.stop_recording`: reject from Idle; otherwise pass
through Stopping, close the sink, reconcile, and end Idle with the stop
flag set. -/
def stop_recording (r : Recorder) (fs : FS) (env : StopEnv) : StopOutcome :=
  if r.state = RecorderState.idle then ⟨false, r, fs, []⟩
  else
    ⟨true,
     { r with state := RecorderState.idle, stopFlag := true },
     (stop_reconcile r fs env).1,
     (stop_reconcile r fs env).2⟩

lemma fix_video_fps_calls (fs : FS) (ok : Bool) (t : ℚ) :
    (fix_video_fps fs ok t).2.2 = [Invocation.fixFps t] := by
  unfold fix_video_fps
  split <;> rfl

lemma stop_fix_branch_calls (fs : FS) (ok : Bool) (t : ℚ) :
    (stop_fix_branch fs ok t).2 = [Invocation.fixFps t] := by
  unfold stop_fix_branch
  exact fix_video_fps_calls _ _ _

lemma stop_recording_calls (r : Recorder) (fs : FS) (env : StopEnv)
    (hS : r.state ≠ RecorderState.idle) :
    (stop_recording r fs env).calls = (stop_reconcile r fs env).2 := by
  unfold stop_recording
  rw [if_neg hS]

lemma stop_recording_fs (r : Recorder) (fs : FS) (env : StopEnv)
    (hS : r.state ≠ RecorderState.idle) :
    (stop_recording r fs env).fs = (stop_reconcile r fs env).1 := by
  unfold stop_recording
  rw [if_neg hS]

/-- Example recorder used to instantiate theorems at concrete inputs. -/
def recEx (s : RecorderState) : Recorder :=
  ⟨s, 30, 0, none, 0, false, false, false, false, false⟩

/-- Example file system: the sink's video sits at the output path. -/
def fsEx : FS := ⟨some Content.video, none, none⟩

/-- Recorder that just captured 10 frames over 1 second with audio enabled. -/
def recC1 : Recorder :=
  ⟨RecorderState.recording, 30, 10, some 0, 0, true, true, true, false, false⟩

/-- Stop environment where the audio flush succeeds but muxing fails. -/
def envC1 : StopEnv := ⟨1, true, false, true⟩

/-- C1 (evidence of the code bug): with audio captured and flushed and the
external muxing failing, `stop_recording` issues exactly one muxing
invocation but the output path ends up holding no file at all — the cleanup
block deletes the temp video before the success check, so the guarded
rename-back never fires and the original video is lost instead of restored
to the output path. -/
theorem stop_mux_failure_loses_video :
    ((stop_recording recC1 fsEx envC1).fs.out,
     (stop_recording recC1 fsEx envC1).calls) = (none, [Invocation.mux 10]) := by
  rw [stop_recording_fs recC1 fsEx envC1 (by decide),
    stop_recording_calls recC1 fsEx envC1 (by decide)]
  norm_num [stop_reconcile, stop_mux_branch, merge_audio_video,
    stop_actual_fps, stop_duration, recC1, fsEx, envC1]

/-- C3: for a stop with audio not enabled, exactly one frame-rate-correction
invocation, with the achieved fps as target, is issued iff at least one
frame was recorded and the achieved fps deviates from the nominal fps by
more than 5% relative error; otherwise no reconciliation action is taken
and the sink's file is left untouched as the final output. -/
theorem stop_no_audio_fps_fix_iff (r : Recorder) (fs : FS) (env : StopEnv)
    (hA : r.enableAudio = false) (hS : r.state ≠ RecorderState.idle) :
    ((stop_recording r fs env).calls
        = [Invocation.fixFps (stop_actual_fps r env.now)] ↔
      (0 < r.frameCount ∧
        1/20 < |stop_actual_fps r env.now - (r.fps : ℚ)| / (r.fps : ℚ))) ∧
    (¬ (0 < r.frameCount ∧
        1/20 < |stop_actual_fps r env.now - (r.fps : ℚ)| / (r.fps : ℚ)) →
      (stop_recording r fs env).calls = [] ∧ (stop_recording r fs env).fs = fs) := by
  have hAG : ¬ (r.enableAudio = true ∧ r.audioCapturePresent = true) := by
    simp [hA]
  have hNA : ¬ r.enableAudio = true := by
    simp [hA]
  rw [stop_recording_calls r fs env hS, stop_recording_fs r fs env hS]
  by_cases hc : 0 < r.frameCount ∧
      1/20 < |stop_actual_fps r env.now - (r.fps : ℚ)| / (r.fps : ℚ)
  · have hcalls : (stop_reconcile r fs env).2
        = [Invocation.fixFps (stop_actual_fps r env.now)] := by
      unfold stop_reconcile
      rw [if_neg hAG, if_pos (And.intro hNA hc.1), if_pos hc.2,
        stop_fix_branch_calls]
    exact ⟨iff_of_true hcalls hc, fun h => absurd hc h⟩
  · have hres : (stop_reconcile r fs env).2 = []
        ∧ (stop_reconcile r fs env).1 = fs := by
      by_cases hFC : 0 < r.frameCount
      · have hdev : ¬ 1/20 <
            |stop_actual_fps r env.now - (r.fps : ℚ)| / (r.fps : ℚ) :=
          fun hd => hc ⟨hFC, hd⟩
        unfold stop_reconcile
        rw [if_neg hAG, if_pos (And.intro hNA hFC), if_neg hdev]
        exact ⟨rfl, rfl⟩
      · unfold stop_reconcile
        rw [if_neg hAG, if_neg (fun h : _ ∧ _ => hFC h.2)]
        exact ⟨rfl, rfl⟩
    refine ⟨?_, fun _ => hres⟩
    rw [hres.1]
    exact iff_of_false (by simp) hc

/-- Recorder of the spec's end-to-end scenario: 30 frames, nominal fps 30,
no audio. -/
def recC3 : Recorder :=
  ⟨RecorderState.recording, 30, 30, some 0, 0, false, false, false, false, false⟩

/-- Stop environment of the end-to-end scenario: stop after 1.5 seconds. -/
def envC3 : StopEnv := ⟨3/2, false, true, true⟩

/-- Witness for C3: the spec's end-to-end scenario — 30 frames over 1.5
seconds at nominal fps 30 gives achieved fps 20, deviation 1/3 > 5%, so
one `fix_video_fps` invocation with target 20 is issued. -/
theorem stop_no_audio_fps_fix_iff_witness :
    (stop_recording recC3 fsEx envC3).calls = [Invocation.fixFps 20] := by
  have hfps : stop_actual_fps recC3 envC3.now = 20 := by
    norm_num [stop_actual_fps, stop_duration, recC3, envC3]
  have h := stop_no_audio_fps_fix_iff recC3 fsEx envC3 rfl (by decide)
  rw [hfps] at h
  exact h.1.mpr (by norm_num [recC3])

/-- C5: every lifecycle operation called in a state where its transition is
not defined — start while not Idle, pause while not Recording, resume while
not Paused, stop while Idle — returns failure and leaves the engine (and,
for stop, the file system) unchanged. -/
theorem wrong_state_ops_no_op (r : Recorder) (fps : ℤ) (ea : Bool)
    (senv : StartEnv) (fs : FS) (env : StopEnv) :
    (r.state ≠ RecorderState.idle → start_recording r fps ea senv = (false, r)) ∧
    (r.state ≠ RecorderState.recording → pause_recording r = (false, r)) ∧
    (r.state ≠ RecorderState.paused → resume_recording r = (false, r)) ∧
    (r.state = RecorderState.idle →
      stop_recording r fs env = ⟨false, r, fs, []⟩) := by
  refine ⟨fun h => ?_, fun h => ?_, fun h => ?_, fun h => ?_⟩
  · unfold start_recording
    rw [if_pos h]
  · unfold pause_recording
    rw [if_pos h]
  · unfold resume_recording
    rw [if_pos h]
  · unfold stop_recording
    rw [if_pos h]

/-- Witness for C5: start from Stopping fails; pause, resume and stop from
Idle fail; nothing changes. -/
theorem wrong_state_ops_no_op_witness :
    start_recording (recEx RecorderState.stopping) 30 false ⟨false, true, 0⟩
      = (false, recEx RecorderState.stopping) ∧
    pause_recording (recEx RecorderState.idle) = (false, recEx RecorderState.idle) ∧
    resume_recording (recEx RecorderState.idle) = (false, recEx RecorderState.idle) ∧
    stop_recording (recEx RecorderState.idle) fsEx ⟨0, false, true, true⟩
      = ⟨false, recEx RecorderState.idle, fsEx, []⟩ := by
  refine ⟨?_, ?_, ?_, ?_⟩
  · exact (wrong_state_ops_no_op (recEx RecorderState.stopping) 30 false
      ⟨false, true, 0⟩ fsEx ⟨0, false, true, true⟩).1 (by decide)
  · exact (wrong_state_ops_no_op (recEx RecorderState.idle) 30 false
      ⟨false, true, 0⟩ fsEx ⟨0, false, true, true⟩).2.1 (by decide)
  · exact (wrong_state_ops_no_op (recEx RecorderState.idle) 30 false
      ⟨false, true, 0⟩ fsEx ⟨0, false, true, true⟩).2.2.1 (by decide)
  · exact (wrong_state_ops_no_op (recEx RecorderState.idle) 30 false
      ⟨false, true, 0⟩ fsEx ⟨0, false, true, true⟩).2.2.2 rfl

/-- C6: a successful start from Idle uses the requested fps clamped to
[1, 120]: below 1 becomes 1, above 120 becomes 120, inside unchanged. -/
theorem start_clamps_fps (r : Recorder) (fps : ℤ) (ea : Bool) (env : StartEnv)
    (hS : r.state = RecorderState.idle) (hEx : env.audioRaises = false)
    (hOpen : env.openOk = true) :
    (start_recording r fps ea env).1 = true ∧
    (start_recording r fps ea env).2.fps =
      (if fps < 1 then 1 else if 120 < fps then 120 else fps) := by
  unfold start_recording
  rw [if_neg (by simp [hS]), if_neg (by simp [hEx]), if_neg (by simp [hOpen])]
  refine ⟨rfl, ?_⟩
  show max 1 (min fps 120) = _
  split_ifs with h1 h2 <;> omega

/-- Witness for C6: fps 500 is clamped to 120 by a successful start. -/
theorem start_clamps_fps_witness :
    (start_recording (recEx RecorderState.idle) 500 false ⟨false, true, 0⟩).2.fps
      = 120 := by
  have h := start_clamps_fps (recEx RecorderState.idle) 500 false ⟨false, true, 0⟩
    rfl rfl rfl
  rw [h.2]
  decide

/-- C9: `get_stats` reports duration 0 in every state other than Recording —
including Paused and Stopping, not only Idle; the elapsed-since-start
duration is reported only while the state is exactly Recording. -/
theorem get_stats_duration_zero (r : Recorder) (now : ℚ)
    (h : r.state ≠ RecorderState.recording) :
    (get_stats r now).duration = 0 := by
  rcases hst : r.startTime with _ | t <;> simp [get_stats, hst, h]

/-- Witness for C9: a Paused recorder with a start time reports duration 0. -/
theorem get_stats_duration_zero_witness :
    (get_stats ⟨RecorderState.paused, 30, 42, some 5, 0, false, false, false,
        false, true⟩ 9).duration = 0 :=
  get_stats_duration_zero _ 9 (by decide)

/-! ### Video sink and the paced capture loop
(`core/video_writer.py`, `Recorder._record_loop`) -/

/-- Region descriptor `{'top', 'left', 'width', 'height'}`. -/
structure Region where
  top : ℤ
  left : ℤ
  width : ℕ
  height : ℕ
deriving DecidableEq

/-- Geometry of one RGB raster: `capture_screen` returns an array of shape
`(height, width, 3)`. -/
structure Frame where
  height : ℕ
  width : ℕ
deriving DecidableEq

/-- Model of `ScreenCapture.capture_screen`: one grab of the requested
region, a raster of that region's geometry. -/
def capture_screen (m : Region) : Frame := ⟨m.height, m.width⟩

/-- State of `VideoWriter`: the geometry fixed at construction, the open
flag, the frames handed to the underlying sink, and `_frame_count`. -/
structure VideoWriter where
  width : ℕ
  height : ℕ
  isOpen : Bool
  received : List Frame
  frameCount : ℕ
deriving DecidableEq

/-- Model of `VideoWriter.write_frame`: rejected when not open; otherwise
the frame goes to the sink and `_frame_count` is incremented. -/
def write_frame (w : VideoWriter) (f : Frame) : Bool × VideoWriter :=
  if w.isOpen = false then (false, w)
  else (true, { w with received := w.received ++ [f],
                       frameCount := w.frameCount + 1 })

/-- One non-paused, non-stopped iteration of `Recorder._record_loop`
(lines 314-321): grab a frame of the session's region, write it to the
sink, increment the engine's frame counter. -/
def record_tick (m : Region) (st : ℕ × VideoWriter) : ℕ × VideoWriter :=
  (st.1 + 1, (write_frame st.2 (capture_screen m)).2)

/-- Runs `n` ticks of the capture loop. -/
def record_loop (m : Region) : ℕ → ℕ × VideoWriter → ℕ × VideoWriter
  | 0, st => st
  | n + 1, st => record_loop m n (record_tick m st)

lemma record_loop_inv (m : Region) (n : ℕ) :
    ∀ (c : ℕ) (w : VideoWriter), w.isOpen = true →
      record_loop m n (c, w)
        = (c + n,
           { w with received := w.received ++ List.replicate n (capture_screen m),
                    frameCount := w.frameCount + n }) := by
  induction n with
  | zero =>
    intro c w hw
    simp [record_loop]
  | succ k ih =>
    intro c w hw
    have hw2 : (write_frame w (capture_screen m)).2
        = { w with received := w.received ++ [capture_screen m],
                   frameCount := w.frameCount + 1 } := by
      unfold write_frame
      rw [if_neg (by simp [hw])]
    rw [record_loop, record_tick, hw2]
    dsimp only
    rw [ih (c + 1)
      { w with received := w.received ++ [capture_screen m],
               frameCount := w.frameCount + 1 } hw]
    dsimp only
    simp only [Prod.mk.injEq, VideoWriter.mk.injEq, List.append_assoc,
      List.singleton_append, List.replicate_succ, true_and, and_true]
    omega

/-- C4: after `N` successful ticks of the paced capture loop starting from a
freshly opened sink of the session's geometry, the engine's frame counter
equals `N` and the sink has received exactly `N` frame writes, all of the
resolution configured at open. -/
theorem record_loop_counts (m : Region) (w : VideoWriter) (n : ℕ)
    (hOpen : w.isOpen = true) (hRecv : w.received = []) (hFC : w.frameCount = 0)
    (hW : w.width = m.width) (hH : w.height = m.height) :
    (record_loop m n (0, w)).1 = n ∧
    (record_loop m n (0, w)).2.frameCount = n ∧
    (record_loop m n (0, w)).2.received.length = n ∧
    ∀ f ∈ (record_loop m n (0, w)).2.received,
      f.width = w.width ∧ f.height = w.height := by
  rw [record_loop_inv m n 0 w hOpen]
  refine ⟨by omega, by show w.frameCount + n = n; omega, ?_, ?_⟩
  · show (w.received ++ List.replicate n (capture_screen m)).length = n
    rw [hRecv]
    simp
  · intro f hf
    rw [show ({ w with
          received := w.received ++ List.replicate n (capture_screen m),
          frameCount := w.frameCount + n } : VideoWriter).received
        = w.received ++ List.replicate n (capture_screen m) from rfl, hRecv] at hf
    simp only [List.nil_append] at hf
    have hfeq := List.eq_of_mem_replicate hf
    subst hfeq
    exact ⟨hW.symm, hH.symm⟩

/-- Witness for C4: three ticks on a 1920 by 1080 session. -/
theorem record_loop_counts_witness :
    (record_loop ⟨0, 0, 1920, 1080⟩ 3 (0, ⟨1920, 1080, true, [], 0⟩)).1 = 3 ∧
    (record_loop ⟨0, 0, 1920, 1080⟩ 3 (0, ⟨1920, 1080, true, [], 0⟩)).2.received.length = 3 := by
  have h := record_loop_counts ⟨0, 0, 1920, 1080⟩ ⟨1920, 1080, true, [], 0⟩ 3
    rfl rfl rfl rfl rfl
  exact ⟨h.1, h.2.2.1⟩

end ScreenRecorder
